import Mathlib

/-
  Shallow embedding of src/src/cornerstone-core/src/cache/cache.ts.

  The Cache class keeps two JavaScript Maps (imageId -> CachedImage,
  volumeId -> CachedVolume), a running byte total (cacheSize) and a
  configurable maximum (maxCacheSize).  JS Maps preserve insertion order,
  so each Map is embedded as an association list in insertion order:
  Map.set replaces in place when the key is present and appends otherwise,
  Map.delete removes the entry, Map.get looks the key up.

  JS methods that can throw are embedded as functions returning the
  post-state together with an optional error message, because a JS throw
  leaves any mutations already performed in place (this matters for
  setMaxCacheSize, which mutates before it throws).

  triggerEvent calls are recorded in an events log carried in the state;
  console.warn calls are external and not modelled.
-/

namespace Cornerstone

/-- A JavaScript value in a numeric position: a number, undefined, or some
other defined non-numeric value (string, boolean, object).  Only the
Number prototype carries toFixed, so the source check
image.sizeInBytes.toFixed === undefined distinguishes num from nonNum.
(A null value would make the toFixed access itself throw a TypeError;
it is not needed for the claims and is left out.) -/
inductive JSNum where
  | num (n : Int)
  | undef
  | nonNum
deriving DecidableEq

/-- The artifact delivered when an image load promise resolves:
its sizeInBytes field and optional sharedCacheKey. -/
structure ImageArtifact where
  sizeInBytes : JSNum
  sharedCacheKey : Option String
deriving DecidableEq

/-- The artifact delivered when a volume load promise resolves. -/
structure VolumeArtifact where
  sizeInBytes : JSNum
deriving DecidableEq

/-- CachedImage record from the source.  The image payload field is
modelled by the flag hasImage (attached or not); the load object itself
(promise, cancel, decache hooks) is external and state-irrelevant. -/
structure CachedImage where
  imageId : String
  loaded : Bool
  hasImage : Bool
  sharedCacheKey : Option String
  timeStamp : Nat
  sizeInBytes : Int
deriving DecidableEq

/-- CachedVolume record from the source; hasVolume models whether the
volume payload has been attached. -/
structure CachedVolume where
  volumeId : String
  loaded : Bool
  hasVolume : Bool
  timeStamp : Nat
  sizeInBytes : Int
deriving DecidableEq

/-- Map.get: first (and only, keys are unique) binding of the key. -/
def mapGet {α : Type} : List (String × α) → String → Option α
  | [], _ => none
  | (k2, v) :: rest, k => if k2 = k then some v else mapGet rest k

/-- Map.set: replace in place when the key is present (JS Maps keep the
original insertion position on overwrite), append otherwise. -/
def mapSet {α : Type} : List (String × α) → String → α → List (String × α)
  | [], k, v => [(k, v)]
  | (k2, v2) :: rest, k, v =>
    if k2 = k then (k, v) :: rest else (k2, v2) :: mapSet rest k v

/-- Map.delete: drop the binding of the key. -/
def mapDelete {α : Type} : List (String × α) → String → List (String × α)
  | [], _ => []
  | (k2, v2) :: rest, k =>
    if k2 = k then rest else (k2, v2) :: mapDelete rest k

/-- State of the Cache class: the two collections, the running byte
total, the configured maximum, and the log of events emitted via
triggerEvent (event name, artifact id). -/
structure Cache where
  imageCache : List (String × CachedImage)
  volumeCache : List (String × CachedVolume)
  cacheSize : Int
  maxCacheSize : Int
  events : List (String × String)
deriving DecidableEq

def MAX_CACHE_SIZE_1GB : Int := 1073741824

/-- The constructor: empty collections, zero size, default 1GB maximum. -/
def newCache : Cache :=
  { imageCache := []
    volumeCache := []
    cacheSize := 0
    maxCacheSize := MAX_CACHE_SIZE_1GB
    events := [] }

def getMaxCacheSize (c : Cache) : Int := c.maxCacheSize

def getCacheSize (c : Cache) : Int := c.cacheSize

/-- setMaxCacheSize from the source: it assigns the new maximum FIRST and
only then tests the guard, and the guard it tests is
maxCacheSize > cacheSize (it throws when the new maximum is LARGER than
the current cache size).  The thrown error therefore leaves the already
mutated maximum in place. -/
def setMaxCacheSize (c : Cache) (newMaxCacheSize : Int) : Cache × Option String :=
  let c2 : Cache := { c with maxCacheSize := newMaxCacheSize }
  if c2.maxCacheSize > c2.cacheSize then
    (c2, some "New max cacheSize larger than current cachesize. You should set the maxCacheSize before adding data to the cache.")
  else
    (c2, none)

/-- checkCacheSizeCanSupportVolume: throws CACHE_SIZE_EXCEEDED when the
current size plus the proposed byte length exceeds the maximum. -/
def checkCacheSizeCanSupportVolume (c : Cache) (byteLength : Int) : Cache × Option String :=
  if getCacheSize c + byteLength > getMaxCacheSize c then
    (c, some "CACHE_SIZE_EXCEEDED")
  else
    (c, none)

/-- The private method of the source whose name carries a leading
underscore: it invokes the external cancel and decache hooks and deletes
the entry from the image collection.  It does NOT touch cacheSize and
emits no event. -/
def decacheImage (c : Cache) (imageId : String) : Cache :=
  { c with imageCache := mapDelete c.imageCache imageId }

/-- Volume analogue of decacheImage; again no size decrement, no event. -/
def decacheVolume (c : Cache) (volumeId : String) : Cache :=
  { c with volumeCache := mapDelete c.volumeCache volumeId }

/-- getImageVolume: throws when the volumeId is absent, otherwise returns
the entry's volume payload (modelled by its hasVolume flag).  Note it has
no undefined-id guard and does not bump the timestamp. -/
def getImageVolume (c : Cache) (volumeId : String) : Cache × Except String Bool :=
  match mapGet c.volumeCache volumeId with
  | none => (c, Except.error "Not present in cache")
  | some cachedVolume => (c, Except.ok cachedVolume.hasVolume)

/-- purgeCache: walks the image Map's key iterator decaching each key,
then the volume Map's key iterator likewise.  JS Map iterators tolerate
deletion of the entry just visited, so every original key is visited:
the walk is a fold of the decache helper over the original key list.
Because the decache helpers never decrement cacheSize, purgeCache leaves
the running total untouched. -/
def purgeCache (c : Cache) : Cache :=
  let afterImages := c.imageCache.foldl (fun acc kv => decacheImage acc kv.1) c
  afterImages.volumeCache.foldl (fun acc kv => decacheVolume acc kv.1) afterImages

/-- decacheUntilBytesAvailable: computes the headroom once; when it
already meets the request it is returned.  Otherwise the while loop's
first statement dereferences imageIterator, an identifier never declared
in the method, the class, or the module: at runtime this is a
ReferenceError thrown out of the method with no state change. -/
def decacheUntilBytesAvailable (c : Cache) (numBytes : Int) : Cache × Except String Int :=
  let bytesAvailable := getMaxCacheSize c - getCacheSize c
  if bytesAvailable ≥ numBytes then
    (c, Except.ok bytesAvailable)
  else
    (c, Except.error "ReferenceError: imageIterator is not defined")

/-- The private eviction sweep: a no-op while cacheSize <= maxCacheSize.
When the size exceeds the maximum it takes this._imageCache.values(),
which is a Map ITERATOR, and immediately calls .sort(compare) on it;
iterators have no sort method, so the sweep throws a TypeError before
removing anything: no eviction ever happens, no event is emitted, and
the state is unchanged apart from the thrown error. -/
def purgeCacheIfNecessary (c : Cache) : Cache × Option String :=
  if getCacheSize c ≤ getMaxCacheSize c then
    (c, none)
  else
    (c, some "TypeError: cachedImages.sort is not a function")

/-- Object.prototype.hasOwnProperty.call(map, key) where map is a JS Map:
Map entries live in an internal slot, never as own object properties of
the Map instance, so the call returns false for every string key. -/
def hasOwnPropertyOnMap {α : Type} (_m : List (String × α)) (_k : String) : Bool :=
  false

/-- Synchronous part of putImageLoadObject.  The imageId argument is
Option String so the undefined-id guard is expressible; hasPromise models
whether imageLoadObject.promise is defined.  The duplicate check is the
source's hasOwnProperty call on the Map, which never fires; the cancelFn
guard tests a property the load object type does not even declare
(cancelFn, not cancel), hence never fires either and is omitted.  On
success an unloaded zero-size entry is Map.set into the collection
(overwriting any existing entry for the id). -/
def putImageLoadObject (c : Cache) (imageId : Option String) (hasPromise : Bool) (now : Nat) : Cache × Option String :=
  match imageId with
  | none => (c, some "putImageLoadObject: imageId must not be undefined")
  | some imageId =>
    if !hasPromise then
      (c, some "putImageLoadObject: imageLoadObject.promise must not be undefined")
    else if hasOwnPropertyOnMap c.imageCache imageId then
      (c, some "putImageLoadObject: imageId already in cache")
    else
      let cachedImage : CachedImage :=
        { imageId := imageId
          loaded := false
          hasImage := false
          sharedCacheKey := none
          timeStamp := now
          sizeInBytes := 0 }
      ({ c with imageCache := mapSet c.imageCache imageId cachedImage }, none)

/-- Synchronous part of putVolumeLoadObject, mirroring the image path
(same never-firing duplicate and cancelFn guards). -/
def putVolumeLoadObject (c : Cache) (volumeId : Option String) (hasPromise : Bool) (now : Nat) : Cache × Option String :=
  match volumeId with
  | none => (c, some "putVolumeLoadObject: volumeId must not be undefined")
  | some volumeId =>
    if !hasPromise then
      (c, some "putVolumeLoadObject: volumeLoadObject.promise must not be undefined")
    else if hasOwnPropertyOnMap c.volumeCache volumeId then
      (c, some "putVolumeLoadObject: volumeId already in cache")
    else
      let cachedVolume : CachedVolume :=
        { volumeId := volumeId
          loaded := false
          hasVolume := false
          timeStamp := now
          sizeInBytes := 0 }
      ({ c with volumeCache := mapSet c.volumeCache volumeId cachedVolume }, none)

/-- The fulfilled callback attached to the image load promise inside
putImageLoadObject.  The source closure mutates the cachedImage object it
captured at insertion; here the entry currently stored under imageId is
mutated, which coincides with the source whenever no removal-plus-
re-insertion of the same id happened in between (the only executions the
claims exercise).  Source order is kept exactly: an absent id is the
silent purged-while-loading no-op; otherwise loaded and the payload are
set FIRST, then the sizeInBytes guards throw (leaving the entry in the
collection, loaded, with its size and the total untouched); on a numeric
size the size is recorded, the total incremented, the ADDED event fired,
the sharedCacheKey copied, and the eviction sweep run. -/
def imageLoadSuccess (c : Cache) (imageId : String) (image : ImageArtifact) : Cache × Option String :=
  match mapGet c.imageCache imageId with
  | none => (c, none)
  | some cachedImage =>
    let cachedImage := { cachedImage with loaded := true, hasImage := true }
    let c := { c with imageCache := mapSet c.imageCache imageId cachedImage }
    match image.sizeInBytes with
    | JSNum.undef => (c, some "putImageLoadObject: image.sizeInBytes must not be undefined")
    | JSNum.nonNum => (c, some "putImageLoadObject: image.sizeInBytes is not a number")
    | JSNum.num n =>
      let cachedImage := { cachedImage with sizeInBytes := n }
      let c := { c with imageCache := mapSet c.imageCache imageId cachedImage,
                        cacheSize := c.cacheSize + n }
      let c := { c with events := c.events ++ [("IMAGE_CACHE_IMAGE_ADDED", imageId)] }
      let cachedImage := { cachedImage with sharedCacheKey := image.sharedCacheKey }
      let c := { c with imageCache := mapSet c.imageCache imageId cachedImage }
      purgeCacheIfNecessary c

/-- The fulfilled callback attached to the volume load promise inside
putVolumeLoadObject; same shape as the image one, without the
sharedCacheKey copy. -/
def volumeLoadSuccess (c : Cache) (volumeId : String) (volume : VolumeArtifact) : Cache × Option String :=
  match mapGet c.volumeCache volumeId with
  | none => (c, none)
  | some cachedVolume =>
    let cachedVolume := { cachedVolume with loaded := true, hasVolume := true }
    let c := { c with volumeCache := mapSet c.volumeCache volumeId cachedVolume }
    match volume.sizeInBytes with
    | JSNum.undef => (c, some "putVolumeLoadObject: volume.sizeInBytes must not be undefined")
    | JSNum.nonNum => (c, some "putVolumeLoadObject: volume.sizeInBytes is not a number")
    | JSNum.num n =>
      let cachedVolume := { cachedVolume with sizeInBytes := n }
      let c := { c with volumeCache := mapSet c.volumeCache volumeId cachedVolume,
                        cacheSize := c.cacheSize + n }
      let c := { c with events := c.events ++ [("IMAGE_CACHE_VOLUME_ADDED", volumeId)] }
      purgeCacheIfNecessary c

/-- getVolume: throws on an undefined id; returns undefined (ok none) on
an absent id with the state untouched; on a present id bumps the entry's
timestamp and returns its payload. -/
def getVolume (c : Cache) (volumeId : Option String) (now : Nat) : Cache × Except String (Option Bool) :=
  match volumeId with
  | none => (c, Except.error "getVolume: volumeId must not be undefined")
  | some volumeId =>
    match mapGet c.volumeCache volumeId with
    | none => (c, Except.ok none)
    | some cachedVolume =>
      let cachedVolume := { cachedVolume with timeStamp := now }
      ({ c with volumeCache := mapSet c.volumeCache volumeId cachedVolume },
        Except.ok (some cachedVolume.hasVolume))

/-- removeImageLoadObject: throws on undefined or absent id; otherwise
decrements the total by the entry's size, fires the REMOVED event and
decaches the entry. -/
def removeImageLoadObject (c : Cache) (imageId : Option String) : Cache × Option String :=
  match imageId with
  | none => (c, some "removeImageLoadObject: imageId must not be undefined")
  | some imageId =>
    match mapGet c.imageCache imageId with
    | none => (c, some "removeImageLoadObject: imageId was not present in imageCache")
    | some cachedImage =>
      let c := { c with cacheSize := c.cacheSize + (-cachedImage.sizeInBytes) }
      let c := { c with events := c.events ++ [("IMAGE_CACHE_IMAGE_REMOVED", imageId)] }
      (decacheImage c imageId, none)

/-- removeVolumeLoadObject, mirroring the image removal path. -/
def removeVolumeLoadObject (c : Cache) (volumeId : Option String) : Cache × Option String :=
  match volumeId with
  | none => (c, some "removeVolumeLoadObject: volumeId must not be undefined")
  | some volumeId =>
    match mapGet c.volumeCache volumeId with
    | none => (c, some "removeVolumeLoadObject: volumeId was not present in volumeCache")
    | some cachedVolume =>
      let c := { c with cacheSize := c.cacheSize + (-cachedVolume.sizeInBytes) }
      let c := { c with events := c.events ++ [("IMAGE_CACHE_VOLUME_REMOVED", volumeId)] }
      (decacheVolume c volumeId, none)

/-- Spec-side measure for the size invariant: the sum of sizeInBytes over
the loaded entries of the image collection. -/
def loadedImageSizeSum (c : Cache) : Int :=
  (c.imageCache.map (fun kv => if kv.2.loaded then kv.2.sizeInBytes else 0)).sum

/-- Spec-side measure: sum of sizeInBytes over loaded volume entries. -/
def loadedVolumeSizeSum (c : Cache) : Int :=
  (c.volumeCache.map (fun kv => if kv.2.loaded then kv.2.sizeInBytes else 0)).sum

/-- Spec-side measure: sum of sizeInBytes over all loaded entries in both
collections, which the spec requires to equal the running total after
every mutating operation. -/
def loadedSizeSum (c : Cache) : Int :=
  loadedImageSizeSum c + loadedVolumeSizeSum c

/- Concrete executions used by the claims. -/

/-- Insert image imgA (pending) into a fresh cache. -/
def runPutA : Cache := (putImageLoadObject newCache (some "imgA") true 1).1

/-- Complete imgA's load with a 10-byte artifact. -/
def runLoadA : Cache :=
  (imageLoadSuccess runPutA "imgA" { sizeInBytes := JSNum.num 10, sharedCacheKey := none }).1

/-- Insert volume volB (pending). -/
def runPutB : Cache := (putVolumeLoadObject runLoadA (some "volB") true 2).1

/-- Complete volB's load with a 7-byte artifact: one loaded image (10)
and one loaded volume (7), cacheSize 17. -/
def runLoadB : Cache :=
  (volumeLoadSuccess runPutB "volB" { sizeInBytes := JSNum.num 7 }).1

/-- Purge the populated cache: both collections are emptied but the
running total is left at 17 because the decache helpers never decrement. -/
def runPurged : Cache := purgeCache runLoadB

/- Further concrete executions used by individual claims. -/

/-- Insert image big (pending) into a fresh cache. -/
def runPutBig : Cache := (putImageLoadObject newCache (some "big") true 1).1

/-- Complete big's load with a 2000000000-byte artifact, which pushes the
total over the 1GB default maximum and triggers the eviction sweep. -/
def runLoadBig : Cache × Option String :=
  imageLoadSuccess runPutBig "big" { sizeInBytes := JSNum.num 2000000000, sharedCacheKey := none }

/-- Insert image dup (pending) into a fresh cache. -/
def runDup1 : Cache := (putImageLoadObject newCache (some "dup") true 1).1

/-- Insert the SAME id dup again, before any removal. -/
def runDup2 : Cache × Option String := putImageLoadObject runDup1 (some "dup") true 2

/-- Insert image mal (pending) into a fresh cache. -/
def runPutMal : Cache := (putImageLoadObject newCache (some "mal") true 3).1

/-- The unloaded entry created for mal by the insertion above. -/
def malEntry : CachedImage :=
  { imageId := "mal"
    loaded := false
    hasImage := false
    sharedCacheKey := none
    timeStamp := 3
    sizeInBytes := 0 }

/-- Complete mal's load with an artifact whose sizeInBytes is undefined. -/
def runLoadMal : Cache × Option String :=
  imageLoadSuccess runPutMal "mal" { sizeInBytes := JSNum.undef, sharedCacheKey := none }

/-- Additionally insert volume vmal (pending) after image mal. -/
def runPutMalV : Cache := (putVolumeLoadObject runPutMal (some "vmal") true 4).1

/-- The unloaded entry created for vmal by the insertion above. -/
def malVolEntry : CachedVolume :=
  { volumeId := "vmal"
    loaded := false
    hasVolume := false
    timeStamp := 4
    sizeInBytes := 0 }

/-- Looking up the key just written by mapSet yields the written value. -/
theorem mapGet_mapSet {α : Type} (m : List (String × α)) (k : String) (v : α) :
    mapGet (mapSet m k v) k = some v := by
  induction m with
  | nil => simp [mapSet, mapGet]
  | cons hd tl ih =>
    obtain ⟨k2, v2⟩ := hd
    by_cases h : k2 = k
    · simp [mapSet, mapGet, h]
    · simp [mapSet, mapGet, h, ih]

/-- C1: the claim says the running byte total equals the sum of
sizeInBytes over all loaded entries in both collections after every
mutating operation.  The code violates this after purgeCache: starting
from a fresh cache, loading image imgA (10 bytes) and volume volB
(7 bytes) and then purging leaves both collections empty (loaded-size
sum 0) while the running total is still 17, because the decache helpers
used by purgeCache never decrement the total. -/
theorem c1_size_invariant_violated_by_purge :
    runPurged.cacheSize = 17 ∧ loadedSizeSum runPurged = 0
    ∧ runPurged.cacheSize ≠ loadedSizeSum runPurged := by
  decide

/-- C2: the claim says purgeCache always leaves both collections empty
and the current size 0.  On the populated cache of the C1 run, purging
does empty both collections but getCacheSize stays 17, not 0. -/
theorem c2_purge_leaves_nonzero_total :
    runPurged.imageCache = [] ∧ runPurged.volumeCache = []
    ∧ getCacheSize runPurged = 17 ∧ getCacheSize runPurged ≠ 0 := by
  decide

/-- C3: the claim says setMaxCacheSize fails (leaving the maximum
unchanged) when the new maximum is below the current total and succeeds
when it is at or above it.  The code has the guard inverted and mutates
before throwing: on a FRESH cache (total 0), setting the maximum to 100
throws, yet the maximum has already been changed to 100; on a cache with
total 10, setting the maximum to 5 (below the total) succeeds silently
and records 5. -/
theorem c3_setMaxCacheSize_guard_inverted :
    ((setMaxCacheSize newCache 100).2 ≠ none
      ∧ (setMaxCacheSize newCache 100).1.maxCacheSize = 100)
    ∧ (runLoadA.cacheSize = 10
      ∧ (setMaxCacheSize runLoadA 5).2 = none
      ∧ (setMaxCacheSize runLoadA 5).1.maxCacheSize = 5) := by
  decide

/-- C4: the claim says the post-completion eviction sweep removes loaded
image entries oldest-first until the size is within the maximum.  In the
code the sweep calls .sort on the Map values ITERATOR, which has no such
method: when image big completes with 2000000000 bytes (above the 1GB
default maximum) the sweep throws a TypeError, nothing is evicted, the
entry stays cached and the total stays above the maximum. -/
theorem c4_eviction_sweep_throws :
    runLoadBig.2 = some "TypeError: cachedImages.sort is not a function"
    ∧ (mapGet runLoadBig.1.imageCache "big").isSome = true
    ∧ runLoadBig.1.cacheSize = 2000000000
    ∧ runLoadBig.1.cacheSize > runLoadBig.1.maxCacheSize := by
  decide

/-- C5: the claim says inserting an id already present fails with a
validation error and creates no new entry.  The code's duplicate check
calls hasOwnProperty on the Map object, which is false for every key, so
inserting dup a second time (before any removal) reports NO error and
silently overwrites the existing entry (the surviving entry carries the
second insertion's timestamp 2). -/
theorem c5_duplicate_put_not_rejected :
    runDup2.2 = none
    ∧ runDup2.1.imageCache =
        [("dup", { imageId := "dup"
                   loaded := false
                   hasImage := false
                   sharedCacheKey := none
                   timeStamp := 2
                   sizeInBytes := 0 })] := by
  decide

/-- C6: if a load's entry was removed from its collection before the
load completes (the id is absent when the fulfilled callback runs), the
completion is a no-op for both classes: the state - collections, running
total and event log - is returned unchanged and no error is thrown, so
the entry does not reappear and getCacheSize is unchanged. -/
theorem c6_completion_after_removal_is_noop (c : Cache) (imageId volumeId : String)
    (image : ImageArtifact) (volume : VolumeArtifact)
    (hi : mapGet c.imageCache imageId = none)
    (hv : mapGet c.volumeCache volumeId = none) :
    imageLoadSuccess c imageId image = (c, none)
    ∧ volumeLoadSuccess c volumeId volume = (c, none) := by
  constructor
  · simp [imageLoadSuccess, hi]
  · simp [volumeLoadSuccess, hv]

/-- Witness for C6 at a fresh cache and ids x, y. -/
theorem c6_completion_after_removal_is_noop_witness :
    mapGet newCache.imageCache "x" = none
    ∧ mapGet newCache.volumeCache "y" = none
    ∧ imageLoadSuccess newCache "x" { sizeInBytes := JSNum.num 5, sharedCacheKey := none } = (newCache, none)
    ∧ volumeLoadSuccess newCache "y" { sizeInBytes := JSNum.num 5 } = (newCache, none) :=
  ⟨rfl, rfl,
    (c6_completion_after_removal_is_noop newCache "x" "y"
      { sizeInBytes := JSNum.num 5, sharedCacheKey := none }
      { sizeInBytes := JSNum.num 5 } rfl rfl).1,
    (c6_completion_after_removal_is_noop newCache "x" "y"
      { sizeInBytes := JSNum.num 5, sharedCacheKey := none }
      { sizeInBytes := JSNum.num 5 } rfl rfl).2⟩

/-- C7 counterexample: the claim says a completion with undefined
sizeInBytes leaves the entry treated as if the load had failed, i.e.
discarded from the collection.  Concretely: after inserting mal and
completing it with an undefined size, an error is thrown, but the entry
is NOT discarded - it remains in the image collection, marked loaded,
with sizeInBytes 0 (the total correctly stays 0). -/
theorem c7_malformed_size_counterexample :
    runLoadMal.2.isSome = true
    ∧ mapGet runLoadMal.1.imageCache "mal"
        = some { imageId := "mal"
                 loaded := true
                 hasImage := true
                 sharedCacheKey := none
                 timeStamp := 3
                 sizeInBytes := 0 }
    ∧ runLoadMal.1.cacheSize = 0 := by
  decide

/-- C7 as amended, for BOTH artifact classes: when a load completes with
an artifact whose sizeInBytes is undefined or not numeric, the completion
throws an error, nothing is added to the running total and no added event
is emitted, but the entry is NOT discarded: it stays in its collection
marked loaded (with payload attached) and its sizeInBytes unchanged. -/
theorem c7_malformed_size_entry_retained (c : Cache) (imageId volumeId : String)
    (e : CachedImage) (ev : CachedVolume)
    (image : ImageArtifact) (volume : VolumeArtifact)
    (hpi : mapGet c.imageCache imageId = some e)
    (hpv : mapGet c.volumeCache volumeId = some ev)
    (hmi : image.sizeInBytes = JSNum.undef ∨ image.sizeInBytes = JSNum.nonNum)
    (hmv : volume.sizeInBytes = JSNum.undef ∨ volume.sizeInBytes = JSNum.nonNum) :
    (((imageLoadSuccess c imageId image).2).isSome = true
      ∧ (imageLoadSuccess c imageId image).1.cacheSize = c.cacheSize
      ∧ (imageLoadSuccess c imageId image).1.events = c.events
      ∧ mapGet (imageLoadSuccess c imageId image).1.imageCache imageId
          = some { e with loaded := true, hasImage := true })
    ∧ (((volumeLoadSuccess c volumeId volume).2).isSome = true
      ∧ (volumeLoadSuccess c volumeId volume).1.cacheSize = c.cacheSize
      ∧ (volumeLoadSuccess c volumeId volume).1.events = c.events
      ∧ mapGet (volumeLoadSuccess c volumeId volume).1.volumeCache volumeId
          = some { ev with loaded := true, hasVolume := true }) := by
  constructor
  · rcases hmi with h | h <;>
      simp [imageLoadSuccess, hpi, h, mapGet_mapSet]
  · rcases hmv with h | h <;>
      simp [volumeLoadSuccess, hpv, h, mapGet_mapSet]

/-- Witness for the amended C7: the cache holding pending image mal and
pending volume vmal, with an undefined-size image artifact and a
non-numeric-size volume artifact. -/
theorem c7_malformed_size_entry_retained_witness :
    (mapGet runPutMalV.imageCache "mal" = some malEntry
      ∧ mapGet runPutMalV.volumeCache "vmal" = some malVolEntry
      ∧ (JSNum.undef = JSNum.undef ∨ JSNum.undef = JSNum.nonNum)
      ∧ (JSNum.nonNum = JSNum.undef ∨ JSNum.nonNum = JSNum.nonNum))
    ∧ ((((imageLoadSuccess runPutMalV "mal" ⟨JSNum.undef, none⟩).2).isSome = true
      ∧ (imageLoadSuccess runPutMalV "mal" ⟨JSNum.undef, none⟩).1.cacheSize = runPutMalV.cacheSize
      ∧ (imageLoadSuccess runPutMalV "mal" ⟨JSNum.undef, none⟩).1.events = runPutMalV.events
      ∧ mapGet (imageLoadSuccess runPutMalV "mal" ⟨JSNum.undef, none⟩).1.imageCache "mal"
          = some { malEntry with loaded := true, hasImage := true })
    ∧ (((volumeLoadSuccess runPutMalV "vmal" ⟨JSNum.nonNum⟩).2).isSome = true
      ∧ (volumeLoadSuccess runPutMalV "vmal" ⟨JSNum.nonNum⟩).1.cacheSize = runPutMalV.cacheSize
      ∧ (volumeLoadSuccess runPutMalV "vmal" ⟨JSNum.nonNum⟩).1.events = runPutMalV.events
      ∧ mapGet (volumeLoadSuccess runPutMalV "vmal" ⟨JSNum.nonNum⟩).1.volumeCache "vmal"
          = some { malVolEntry with loaded := true, hasVolume := true })) :=
  ⟨⟨by decide, by decide, Or.inl rfl, Or.inr rfl⟩,
    c7_malformed_size_entry_retained runPutMalV "mal" "vmal" malEntry malVolEntry
      ⟨JSNum.undef, none⟩ ⟨JSNum.nonNum⟩
      (by decide) (by decide) (Or.inl rfl) (Or.inr rfl)⟩

/-- C8: the claim says decacheUntilBytesAvailable evicts images
oldest-first until the requested headroom exists and returns the
headroom afterward.  In the code the eviction loop's first statement
reads imageIterator, an identifier that is never declared anywhere in
scope: whenever the currently available headroom is below the request
(here: fresh cache, headroom 1073741824, request 2147483648) the call
throws a ReferenceError and evicts nothing. -/
theorem c8_reserve_throws_reference_error :
    decacheUntilBytesAvailable newCache 2147483648
      = (newCache, Except.error "ReferenceError: imageIterator is not defined") := by
  rfl

/-- C9: a freshly constructed cache has empty image and volume
collections, a running total of 0 and a maximum cache size of exactly
1073741824 bytes (the MAX_CACHE_SIZE_1GB default). -/
theorem c9_fresh_cache_defaults :
    newCache.imageCache = [] ∧ newCache.volumeCache = []
    ∧ getCacheSize newCache = 0
    ∧ getMaxCacheSize newCache = 1073741824
    ∧ MAX_CACHE_SIZE_1GB = 1073741824 := by
  decide

/-- C10: for a volumeId absent from the volume collection, getImageVolume
throws "Not present in cache" while getVolume on the same id returns
undefined with no error; neither call modifies any state. -/
theorem c10_volume_accessors_disagree_on_absent (c : Cache) (volumeId : String) (now : Nat)
    (h : mapGet c.volumeCache volumeId = none) :
    getImageVolume c volumeId = (c, Except.error "Not present in cache")
    ∧ getVolume c (some volumeId) now = (c, Except.ok none) := by
  constructor
  · simp [getImageVolume, h]
  · simp [getVolume, h]

/-- Witness for C10 at a fresh cache and id v. -/
theorem c10_volume_accessors_disagree_on_absent_witness :
    mapGet newCache.volumeCache "v" = none
    ∧ getImageVolume newCache "v" = (newCache, Except.error "Not present in cache")
    ∧ getVolume newCache (some "v") 9 = (newCache, Except.ok none) :=
  ⟨rfl,
    (c10_volume_accessors_disagree_on_absent newCache "v" 9 rfl).1,
    (c10_volume_accessors_disagree_on_absent newCache "v" 9 rfl).2⟩

end Cornerstone
